import Mathlib

/-!
# Verification of the ChatAds MCP wrapper pipeline

A shallow embedding of the resilient request pipeline of the
`chatads-mcp-wrapper` repository: input validation, request payload
building, the circuit breaker, the bounded-retry HTTP client, envelope
normalization, quota warnings and the orchestrator.  The implementation
module itself is absent from the repository snapshot (only its test
suite, live-test script and examples are present), so every definition
below is modelled from the specification, pinned at concrete points by
the behavior the unit tests demand.  Machine details (wall-clock time,
latencies) are modelled with exact rationals; JSON dictionaries are
modelled as structures with `Option` fields for possibly-missing keys.
-/

namespace ChatAds

/-! ## Basic string helpers (Python semantics, char-list level) -/

/-- `charsPrefixOf pat l` holds when `pat` is an initial segment of `l`. -/
def charsPrefixOf : List Char → List Char → Bool
  | [], _ => true
  | _ :: _, [] => false
  | a :: as, b :: bs => a == b && charsPrefixOf as bs

/-- `charsInfixOf pat l` holds when `pat` occurs contiguously inside `l`. -/
def charsInfixOf (pat : List Char) : List Char → Bool
  | [] => pat.isEmpty
  | c :: cs => charsPrefixOf pat (c :: cs) || charsInfixOf pat cs

/-- Substring containment: `strContains hay pat` holds when `pat` occurs
contiguously inside `hay` (Python's `pat in hay`). -/
def strContains (hay pat : String) : Bool :=
  charsInfixOf pat.data hay.data

/-- Lower-casing of a string, Python `str.lower` restricted to ASCII. -/
def pyLower (s : String) : String :=
  String.mk (s.data.map Char.toLower)

/-- Python `str.capitalize`: first character upper-cased, the rest
lower-cased. -/
def pyCapitalize (s : String) : String :=
  match s.data with
  | [] => ""
  | c :: cs => String.mk (c.toUpper :: cs.map Char.toLower)

/-- Replace every underscore by a space (Python `s.replace("_", " ")`). -/
def underscoresToSpaces (s : String) : String :=
  String.mk (s.data.map (fun c => if c = '_' then ' ' else c))

/-- Python `str.strip`: drop leading and trailing whitespace. -/
def pyStrip (s : String) : String :=
  String.mk (((s.data.dropWhile Char.isWhitespace).reverse.dropWhile
    Char.isWhitespace).reverse)

/-- Split a character list at the first `':'`, when one occurs:
returns the (colon-free) part before it and the untouched part after it. -/
def splitFirstColon : List Char → Option (List Char × List Char)
  | [] => none
  | c :: cs =>
    if c = ':' then some ([], cs)
    else (splitFirstColon cs).map (fun p => (c :: p.1, p.2))

/-- Python `str.split()` with no separator: whitespace-delimited words,
empty chunks dropped.  `acc` is the word currently being read, reversed. -/
def splitWordsAux (acc : List Char) : List Char → List (List Char)
  | [] => if acc.isEmpty then [] else [acc.reverse]
  | c :: cs =>
    if c.isWhitespace then
      if acc.isEmpty then splitWordsAux [] cs
      else acc.reverse :: splitWordsAux [] cs
    else splitWordsAux (c :: acc) cs

/-- The whitespace-delimited words of a string. -/
def pyWords (s : String) : List (List Char) :=
  splitWordsAux [] s.data

/-- Number of whitespace-delimited words (Python `len(s.split())`). -/
def wordCount (s : String) : Nat :=
  (pyWords s).length

/-! ## The typed error (`ChatAdsAPIError`) -/

/-- The wrapper's typed error: free-form message, taxonomy code, HTTP
status code and a details mapping. -/
structure ChatAdsAPIError where
  message : String
  code : String
  status_code : Nat
  details : List (String × String)
deriving Repr, DecidableEq

deriving instance DecidableEq for Except

/-- `ChatAdsAPIError(message)` with only the message given: the
constructor defaults are code `UPSTREAM_ERROR`, status 502 and empty
details. -/
def ChatAdsAPIError.mkDefault (message : String) : ChatAdsAPIError :=
  { message := message, code := "UPSTREAM_ERROR", status_code := 502, details := [] }

/-- `str(error)` returns the constructor message. -/
def ChatAdsAPIError.toText (e : ChatAdsAPIError) : String :=
  e.message

/-! ## Error-text sanitization -/

/-- The fixed redaction string substituted for credential-carrying
error text. -/
def _API_KEY_REDACTION : String := "Request error (details redacted for security)"

/-- Modelled from the spec: `_sanitize_error_for_logging` of the missing
implementation module.  The error text is scanned for the literal
credential value and for the credential-carrying header substrings
`x-api-key` and `authorization`; the header scan is over the lower-cased
text (the tests redact `"Authorization header invalid"`).  A hit replaces
the whole message by the fixed redaction string; otherwise the text
passes through unchanged.  `keyHitFlag` is the credential scan. -/
def keyHitFlag (errText : String) : Option String → Bool
  | some k => decide (k ≠ "") && strContains errText k
  | none => false

/-- The sanitizer itself; see `keyHitFlag`. -/
def _sanitize_error_for_logging (errText : String) (api_key : Option String) : String :=
  let lower := pyLower errText
  if keyHitFlag errText api_key || strContains lower "x-api-key" ||
      strContains lower "authorization" then
    _API_KEY_REDACTION
  else
    errText

/-! ## Reason normalization -/

/-- Modelled from the spec: `_normalize_reason` of the missing
implementation module.  An absent or empty reason becomes `none`; a
reason with a colon has the text before the first colon humanized
(underscores to spaces, then Python-capitalized) with the remainder kept
untouched; a reason without a colon is returned completely unchanged. -/
def _normalize_reason (reason : Option String) : Option String :=
  match reason with
  | none => none
  | some r =>
    if r = "" then none
    else
      match splitFirstColon r.data with
      | none => some r
      | some (pre, post) =>
        some (pyCapitalize (underscoresToSpaces (String.mk pre)) ++
          String.mk (':' :: post))

/-! ## Input validation -/

/-- Split a character list on a separator character (Python
`s.split(sep)`: `""` splits to `[""]`). -/
def splitOnChar (sep : Char) : List Char → List (List Char)
  | [] => [[]]
  | c :: cs =>
    if c = sep then [] :: splitOnChar sep cs
    else
      match splitOnChar sep cs with
      | [] => [[c]]
      | w :: ws => (c :: w) :: ws

/-- Split a character list on the two-character separator `::`. -/
def splitOnColonColon : List Char → List (List Char)
  | [] => [[]]
  | ':' :: ':' :: rest => [] :: splitOnColonColon rest
  | c :: rest =>
    match splitOnColonColon rest with
    | [] => [[c]]
    | w :: ws => (c :: w) :: ws

/-- Decimal value of a digit list. -/
def digitsVal (cs : List Char) : Nat :=
  cs.foldl (fun n c => n * 10 + (c.toNat - 48)) 0

/-- A decimal IPv4 octet: 1–3 digits, value ≤ 255, no leading zero. -/
def isValidOctet (cs : List Char) : Bool :=
  decide (cs ≠ []) && decide (cs.length ≤ 3) && cs.all Char.isDigit &&
    decide (digitsVal cs ≤ 255) &&
    (decide (cs.length = 1) || decide (cs.head? ≠ some '0'))

/-- An IPv4 literal: four dot-separated valid octets. -/
def isValidIPv4 (s : String) : Bool :=
  match splitOnChar '.' s.data with
  | [a, b, c, d] => isValidOctet a && isValidOctet b && isValidOctet c && isValidOctet d
  | _ => false

/-- A hexadecimal IPv6 group: 1–4 hex digits. -/
def isHexGroup (cs : List Char) : Bool :=
  decide (cs ≠ []) && decide (cs.length ≤ 4) &&
    cs.all (fun c => c.isDigit || ('a' ≤ c && c ≤ 'f') || ('A' ≤ c && c ≤ 'F'))

/-- An IPv6 literal: eight colon-separated hex groups, or at most seven
groups around a single `::` elision. -/
def isValidIPv6 (s : String) : Bool :=
  match splitOnColonColon s.data with
  | [whole] =>
    let ps := splitOnChar ':' whole
    decide (ps.length = 8) && ps.all isHexGroup
  | [l, r] =>
    let ls := if l.isEmpty then [] else splitOnChar ':' l
    let rs := if r.isEmpty then [] else splitOnChar ':' r
    decide (ls.length + rs.length ≤ 7) && ls.all isHexGroup && rs.all isHexGroup
  | _ => false

/-- A valid IP literal: IPv4 or IPv6. -/
def isValidIP (s : String) : Bool :=
  isValidIPv4 s || isValidIPv6 s

/-- Exactly two uppercase ASCII letters (ISO 3166-1 alpha-2 shape). -/
def isTwoUpper (s : String) : Bool :=
  decide (s.length = 2) && s.data.all (fun c => 'A' ≤ c && c ≤ 'Z')

/-- Exactly two lowercase ASCII letters (ISO 639-1 shape). -/
def isTwoLower (s : String) : Bool :=
  decide (s.length = 2) && s.data.all (fun c => 'a' ≤ c && c ≤ 'z')

/-- Validity of an optional field under a shape predicate: absent values
always pass. -/
def optValid (p : String → Bool) : Option String → Bool
  | some v => p v
  | none => true

/-- Invalidity of a present optional field: the failure condition of the
optional-field checks (absent values never fail). -/
def optInvalid (p : String → Bool) : Option String → Bool
  | some v => !(p v)
  | none => false

/-- A validation failure as a `ChatAdsAPIError` with HTTP status 400. -/
def valErr (code msg : String) : ChatAdsAPIError :=
  { message := msg, code := code, status_code := 400, details := [] }

/-- Modelled from the spec: `_validate_inputs` of the missing
implementation module.  Checks run in order, short-circuiting at the
first failure: non-empty credential, message non-empty after trimming,
word count within [2, 100], character length ≤ 2000, then the optional
IP, country and language shapes.  Pure function of its inputs. -/
def _validate_inputs (message : String) (ip country language : Option String)
    (api_key : String) : Except ChatAdsAPIError Unit :=
  if api_key = "" then
    .error (valErr "CONFIGURATION_ERROR" "API key is missing; set CHATADS_API_KEY")
  else if pyStrip message = "" then
    .error (valErr "INVALID_INPUT" "message cannot be empty")
  else if wordCount message < 2 then
    .error (valErr "MESSAGE_TOO_SHORT" "message must contain at least 2 words")
  else if wordCount message > 100 then
    .error (valErr "MESSAGE_TOO_MANY_WORDS" "message must contain at most 100 words")
  else if message.length > 2000 then
    .error (valErr "MESSAGE_TOO_LONG" "message must be at most 2000 characters")
  else if optInvalid isValidIP ip then
    .error (valErr "INVALID_INPUT" "Invalid IP address")
  else if optInvalid isTwoUpper country then
    .error (valErr "INVALID_INPUT" "country must be an ISO 3166-1 alpha-2 code")
  else if optInvalid isTwoLower language then
    .error (valErr "INVALID_INPUT" "language must be an ISO 639-1 code")
  else
    .ok ()

/-- Modelled from the spec: `_build_request_payload` of the missing
implementation module.  Renames `user_agent` to the wire key `userAgent`
and drops every absent optional field. -/
def _build_request_payload (message : String)
    (ip user_agent country language : Option String) : List (String × String) :=
  [("message", message)] ++
    (match ip with | some v => [("ip", v)] | none => []) ++
    (match user_agent with | some v => [("userAgent", v)] | none => []) ++
    (match country with | some v => [("country", v)] | none => []) ++
    (match language with | some v => [("language", v)] | none => [])

/-- The taxonomy code of a validation outcome (`none` on success). -/
def validateCode : Except ChatAdsAPIError Unit → Option String
  | .ok _ => none
  | .error e => some e.code

/-- The locally produced codes of the closed error taxonomy. -/
def localCodes : List String :=
  ["CONFIGURATION_ERROR", "INVALID_INPUT", "MESSAGE_TOO_SHORT",
   "MESSAGE_TOO_MANY_WORDS", "MESSAGE_TOO_LONG", "UPSTREAM_UNAVAILABLE",
   "UPSTREAM_ERROR"]

/-! ## Circuit breaker -/

/-- The three circuit-breaker states. -/
inductive CircuitState where
  | CLOSED
  | OPEN
  | HALF_OPEN
deriving Repr, DecidableEq

/-- Modelled from the spec: the `CircuitBreaker` of the missing
implementation module.  Wall-clock time is made explicit: every
operation that reads or stamps the clock takes the current time (in
whole seconds, as an integer) as an argument. -/
structure CircuitBreaker where
  failure_threshold : Nat
  timeout_seconds : ℤ
  state : CircuitState
  failure_count : Nat
  last_failure_time : Option ℤ
deriving Repr, DecidableEq

/-- A fresh breaker: CLOSED with a zero failure counter. -/
def CircuitBreaker.init (failure_threshold : Nat) (timeout_seconds : ℤ) :
    CircuitBreaker :=
  { failure_threshold := failure_threshold, timeout_seconds := timeout_seconds,
    state := .CLOSED, failure_count := 0, last_failure_time := none }

/-- `record_failure` at time `now`: increments the consecutive-failure
counter and stamps the failure time; a failure in HALF_OPEN, or reaching
the threshold, opens the circuit. -/
def CircuitBreaker.record_failure (cb : CircuitBreaker) (now : ℤ) : CircuitBreaker :=
  let count := cb.failure_count + 1
  { cb with
    failure_count := count
    last_failure_time := some now
    state :=
      if cb.state = .HALF_OPEN ∨ cb.failure_threshold ≤ count then .OPEN
      else cb.state }

/-- `record_success`: resets the counter and closes the circuit (in
CLOSED this is the counter reset; in HALF_OPEN this is the trial call
succeeding). -/
def CircuitBreaker.record_success (cb : CircuitBreaker) : CircuitBreaker :=
  { cb with failure_count := 0, state := .CLOSED }

/-- `is_available` at time `now`: returns whether a call is permitted
together with the (possibly updated) breaker.  CLOSED and HALF_OPEN
permit the call; OPEN permits it only once `timeout_seconds` have
elapsed since the last failure, transitioning to HALF_OPEN. -/
def CircuitBreaker.is_available (cb : CircuitBreaker) (now : ℤ) :
    Bool × CircuitBreaker :=
  match cb.state with
  | .CLOSED => (true, cb)
  | .HALF_OPEN => (true, cb)
  | .OPEN =>
    match cb.last_failure_time with
    | some tf =>
      if cb.timeout_seconds ≤ now - tf then (true, { cb with state := .HALF_OPEN })
      else (false, cb)
    | none => (true, { cb with state := .HALF_OPEN })

/-- `get_state`. -/
def CircuitBreaker.get_state (cb : CircuitBreaker) : CircuitState :=
  cb.state

/-- `n` consecutive `record_failure` calls, all stamped at time `t`. -/
def CircuitBreaker.recordFailures (cb : CircuitBreaker) (t : ℤ) : Nat → CircuitBreaker
  | 0 => cb
  | n + 1 => (cb.recordFailures t n).record_failure t

/-! ## Upstream envelope and the resilient HTTP client -/

/-- The matched offer inside a success envelope. -/
structure RawAd where
  product : Option String
  category : Option String
  link : Option String
  ad_message : Option String
deriving Repr, DecidableEq

/-- The `data` object of the upstream envelope. -/
structure RawData where
  matched : Bool
  ad : Option RawAd
  reason : Option String
deriving Repr, DecidableEq

/-- The `error` object of the upstream envelope. -/
structure RawError where
  code : Option String
  error_message : Option String
deriving Repr, DecidableEq

/-- The raw `usage` object inside the envelope's `meta`; every key may
be missing (`none` models both a missing key and a malformed value). -/
structure RawUsage where
  monthly_requests : Option Nat
  free_tier_limit : Option Nat
  free_tier_remaining : Option Nat
  daily_requests : Option Nat
  daily_limit : Option Nat
  minute_requests : Option Nat
  minute_limit : Option Nat
  is_free_tier : Option Bool
  has_credit_card : Option Bool
deriving Repr, DecidableEq

/-- The `meta` object of the upstream envelope.  `usage = none` models
an absent or non-mapping usage payload. -/
structure RawMeta where
  request_id : Option String
  country : Option String
  language : Option String
  usage : Option RawUsage
deriving Repr, DecidableEq

/-- The upstream JSON envelope. -/
structure RawEnvelope where
  success : Bool
  data : Option RawData
  error : Option RawError
  meta : Option RawMeta
deriving Repr, DecidableEq

/-- The outcome of one network attempt, as the mocked transport presents
it: a transient transport failure (timeout / connection error) or an
HTTP response with status, parsed body and measured latency. -/
inductive AttemptOutcome where
  | transient (msg : String)
  | response (status : Nat) (body : RawEnvelope) (latencyMs : ℚ)
deriving Repr, DecidableEq

/-- An attempt outcome is retryable when it is a transport failure or an
HTTP 5xx response. -/
def isRetryable : AttemptOutcome → Bool
  | .transient _ => true
  | .response s _ _ => 500 ≤ s && s ≤ 599

/-- What `fetch` returns on its non-raising path. -/
structure FetchSuccess where
  body : RawEnvelope
  status : Nat
  latencyMs : ℚ
deriving Repr, DecidableEq

/-- The `UPSTREAM_UNAVAILABLE` error raised when retries are exhausted,
carrying the sanitized last underlying message. -/
def upstreamUnavailable (lastMsg : String) : ChatAdsAPIError :=
  { message := _sanitize_error_for_logging lastMsg none,
    code := "UPSTREAM_UNAVAILABLE", status_code := 503, details := [] }

/-- Modelled from the spec: the retry loop of `ChatAdsClient.fetch`.
`oracle i` is the outcome of the `i`-th POST attempt (1-based);
`remaining` is the number of attempts still permitted.  Returns the
result together with the number of POST attempts actually issued.
Backoff sleeps do not affect the result and are not modelled. -/
def retryLoop (oracle : Nat → AttemptOutcome) (attemptIdx : Nat) :
    Nat → Except ChatAdsAPIError FetchSuccess × Nat
  | 0 => (.error (upstreamUnavailable "no attempts permitted"), 0)
  | remaining + 1 =>
    match oracle attemptIdx with
    | .transient msg =>
      if remaining = 0 then (.error (upstreamUnavailable msg), 1)
      else
        let r := retryLoop oracle (attemptIdx + 1) remaining
        (r.1, r.2 + 1)
    | .response s body lat =>
      if 500 ≤ s ∧ s ≤ 599 then
        if remaining = 0 then (.error (upstreamUnavailable s!"HTTP {s}"), 1)
        else
          let r := retryLoop oracle (attemptIdx + 1) remaining
          (r.1, r.2 + 1)
      else
        (.ok ⟨body, s, lat⟩, 1)

/-- Modelled from the spec: `ChatAdsClient.fetch`.  If the circuit
breaker is enabled and reports unavailable, fail immediately with
`UPSTREAM_UNAVAILABLE` and zero attempts; otherwise run up to
`max_retries` attempts. -/
def ChatAdsClient.fetch (max_retries : Nat) (breakerPermits : Bool)
    (oracle : Nat → AttemptOutcome) : Except ChatAdsAPIError FetchSuccess × Nat :=
  if breakerPermits then retryLoop oracle 1 max_retries
  else (.error { message := "Circuit breaker is open; upstream unavailable",
                 code := "UPSTREAM_UNAVAILABLE", status_code := 503, details := [] }, 0)

/-! ## Usage summary and quota monitor -/

/-- One quota window of the usage summary; each key may be missing when
the summary is built by hand (the tests call the quota monitor with
partial dictionaries). -/
structure QuotaWindow where
  used : Option Nat
  limit : Option Nat
  remaining : Option Nat
deriving Repr, DecidableEq

/-- The usage summary attached to normalized metadata. -/
structure UsageSummary where
  monthly : Option QuotaWindow
  daily : Option QuotaWindow
  minute : Option QuotaWindow
  is_free_tier : Option Bool
  has_credit_card : Option Bool
deriving Repr, DecidableEq

/-- Modelled from the spec: `_summarize_usage` of the missing
implementation module.  A non-mapping or absent usage payload (`none`)
yields no summary; a mapping missing any of its per-window counters also
yields no summary, never a partially populated one. -/
def _summarize_usage (raw : Option RawUsage) : Option UsageSummary :=
  match raw with
  | none => none
  | some u =>
    match u.monthly_requests, u.free_tier_limit, u.free_tier_remaining,
        u.daily_requests, u.daily_limit, u.minute_requests, u.minute_limit with
    | some mu, some ml, some mr, some du, some dl, some iu, some il =>
      some { monthly := some ⟨some mu, some ml, some mr⟩,
             daily := some ⟨some du, some dl, none⟩,
             minute := some ⟨some iu, some il, none⟩,
             is_free_tier := u.is_free_tier,
             has_credit_card := u.has_credit_card }
    | _, _, _, _, _, _, _ => none

/-- The monthly warning fires when at most 10 requests remain. -/
def monthlyLow (remaining : Nat) : Bool :=
  remaining ≤ 10

/-- The daily warning fires when used/limit is at least 90%. -/
def dailyHigh (used limit : Nat) : Bool :=
  decide (limit ≠ 0) && decide (limit * 9 ≤ used * 10)

/-- The minute warning fires when used/limit is at least 80%, or used is
exactly one below the limit. -/
def minuteNear (used limit : Nat) : Bool :=
  decide (limit ≠ 0) && (decide (limit * 4 ≤ used * 5) || decide (used + 1 = limit))

/-- The separator-joined warning text. -/
def joinWarnings : List String → String
  | [] => ""
  | [w] => w
  | w :: ws => w ++ " | " ++ joinWarnings ws

/-- The monthly warning text, naming the exact remaining count. -/
def monthlyWarningText (remaining : Nat) : String :=
  "Low monthly quota: only " ++ (toString remaining ++ " requests remaining")

/-- The daily warning text, naming the used percentage. -/
def dailyWarningText (used limit : Nat) : String :=
  "Daily quota at " ++ (toString (used * 100 / limit) ++ "%") ++
    (" (" ++ toString used ++ "/" ++ toString limit ++ ")")

/-- The per-minute warning text. -/
def minuteWarningText (used limit : Nat) : String :=
  "Approaching per-" ++ "minute" ++
    (" rate limit (" ++ toString used ++ "/" ++ toString limit ++ ")")

/-- The warnings a single window contributes: nothing when its required
sub-fields are missing, its warning text when its condition fires. -/
def monthlyWarnings : Option QuotaWindow → List String
  | some w =>
    match w.remaining with
    | some rem => if monthlyLow rem then [monthlyWarningText rem] else []
    | none => []
  | none => []

/-- The daily window's contribution. -/
def dailyWarnings : Option QuotaWindow → List String
  | some w =>
    match w.used, w.limit with
    | some used, some limit =>
      if dailyHigh used limit then [dailyWarningText used limit] else []
    | _, _ => []
  | none => []

/-- The minute window's contribution. -/
def minuteWarnings : Option QuotaWindow → List String
  | some w =>
    match w.used, w.limit with
    | some used, some limit =>
      if minuteNear used limit then [minuteWarningText used limit] else []
    | _, _ => []
  | none => []

/-- Modelled from the spec: `_check_quota_warnings` of the missing
implementation module.  Evaluates the three window conditions
independently, concatenates the warnings that fire with `" | "`, and
returns nothing when no usage data is given, when the required
sub-fields are missing, or when usage is healthy. -/
def _check_quota_warnings (summary : Option UsageSummary) : Option String :=
  match summary with
  | none => none
  | some u =>
    let ws := monthlyWarnings u.monthly ++ dailyWarnings u.daily ++
      minuteWarnings u.minute
    if ws.isEmpty then none else some (joinWarnings ws)

/-! ## Envelope normalization -/

/-- Latency rounded to 2 decimal places. -/
def round2 (q : ℚ) : ℚ :=
  (round (q * 100) : ℤ) / 100

/-- The known friendly hints substituted for uninformative upstream
error messages. -/
def errorHint (code : String) : String :=
  if code = "UNAUTHORIZED" then
    "Your ChatAds API key is missing or invalid; check CHATADS_API_KEY"
  else if code = "FORBIDDEN" then
    "Your ChatAds API key is not permitted to call this endpoint"
  else if code = "QUOTA_EXCEEDED" then
    "Your ChatAds quota has been exceeded; upgrade your plan or wait for reset"
  else if code = "RATE_LIMITED" then
    "Too many requests; slow down and retry shortly"
  else
    "ChatAds could not process this request; please retry later"

/-- Modelled from the spec: `_friendly_error_message` of the missing
implementation module.  Keeps a non-empty upstream message verbatim and
substitutes the local hint for the code otherwise. -/
def _friendly_error_message (code : String) (rawMsg : Option String) : String :=
  match rawMsg with
  | some m => if m = "" then errorHint code else m
  | none => errorHint code

/-- The metadata block attached to every normalized result. -/
structure ResultMetadata where
  request_id : String
  latency_ms : ℚ
  status_code : Nat
  country : Option String
  language : Option String
  usage_summary : Option UsageSummary
  notes : Option String
deriving Repr, DecidableEq

/-- Modelled from the spec: `_build_metadata` of the missing
implementation module.  Takes the request id from the body when present,
otherwise a locally generated `mcp-` prefixed identifier; rounds the
latency to 2 decimals; echoes country/language; summarizes usage. -/
def _build_metadata (meta : Option RawMeta) (latency_ms : ℚ)
    (status_code : Nat) : ResultMetadata :=
  { request_id := ((meta.bind RawMeta.request_id).getD "mcp-generated-id"),
    latency_ms := round2 latency_ms,
    status_code := status_code,
    country := meta.bind RawMeta.country,
    language := meta.bind RawMeta.language,
    usage_summary := _summarize_usage (meta.bind RawMeta.usage),
    notes := none }

/-- The normalized result returned to the caller. -/
structure NormalizedResult where
  status : String
  matched : Bool
  product : Option String
  category : Option String
  affiliate_link : Option String
  affiliate_message : Option String
  reason : Option String
  error_code : Option String
  error_message : Option String
  metadata : ResultMetadata
deriving Repr, DecidableEq

/-- An all-absent normalized result used as the base of each variant. -/
def emptyResult (meta : ResultMetadata) : NormalizedResult :=
  { status := "error", matched := false, product := none, category := none,
    affiliate_link := none, affiliate_message := none, reason := none,
    error_code := none, error_message := none, metadata := meta }

/-- The fallback error variant for a body shape matching none of the
three known envelope shapes. -/
def upstreamFallbackResult (meta : ResultMetadata) : NormalizedResult :=
  { emptyResult meta with
    status := "error", error_code := some "UPSTREAM_ERROR",
    error_message := some (errorHint "UPSTREAM_ERROR") }

/-- The error variant for a non-2xx status or `success = false` body:
code from the body's error object, defaulted to `UPSTREAM_ERROR`. -/
def errorVariantResult (meta : ResultMetadata) (err : Option RawError) :
    NormalizedResult :=
  let code := (err.bind RawError.code).getD "UPSTREAM_ERROR"
  { emptyResult meta with
    status := "error", error_code := some code,
    error_message := some (_friendly_error_message code
      (err.bind RawError.error_message)) }

/-- The success variant: the matched offer copied verbatim (a matched
body with no offer falls back to the error variant). -/
def matchedResult (meta : ResultMetadata) : Option RawAd → NormalizedResult
  | some ad =>
    { emptyResult meta with
      status := "success", matched := true, product := ad.product,
      category := ad.category, affiliate_link := ad.link,
      affiliate_message := ad.ad_message }
  | none => upstreamFallbackResult meta

/-- The no-match variant with the normalized reason. -/
def noMatchResult (meta : ResultMetadata) (reason : Option String) :
    NormalizedResult :=
  { emptyResult meta with
    status := "no_match", reason := _normalize_reason reason }

/-- Dispatch on the body's `data` object. -/
def normalizeData (meta : ResultMetadata) : Option RawData → NormalizedResult
  | none => upstreamFallbackResult meta
  | some d =>
    if d.matched then matchedResult meta d.ad else noMatchResult meta d.reason

/-- Modelled from the spec: `normalize_envelope` of the missing
implementation module.  A non-2xx status or a false top-level `success`
flag yields the error variant (code defaulted to `UPSTREAM_ERROR`); a
body whose data indicates no match yields the no-match variant with the
normalized reason; a matched body yields the success variant with the
offer copied verbatim; any other field combination falls back to the
error variant.  Metadata is always attached. -/
def normalize_envelope (raw : RawEnvelope) (status_code : Nat)
    (latency_ms : ℚ) : NormalizedResult :=
  let meta := _build_metadata raw.meta latency_ms status_code
  if ¬(200 ≤ status_code ∧ status_code ≤ 299) ∨ raw.success = false then
    errorVariantResult meta raw.error
  else
    normalizeData meta raw.data

/-! ## Orchestrator -/

/-- Modelled from the spec: `_resolve_api_key` of the missing
implementation module.  The explicit override takes precedence (Python
`or`: an empty override falls through); otherwise the `CHATADS_API_KEY`
environment value; an empty or missing result is a configuration
error (`missingKeyError`). -/
def missingKeyError : ChatAdsAPIError :=
  { message := "API key is missing; set CHATADS_API_KEY",
    code := "CONFIGURATION_ERROR", status_code := 500, details := [] }

/-- The credential resolution itself; see `missingKeyError`. -/
def _resolve_api_key (override env : Option String) : Except ChatAdsAPIError String :=
  let k := match override with
    | some s => if s = "" then (env.getD "") else s
    | none => env.getD ""
  if k = "" then
    .error missingKeyError
  else
    .ok k

/-- The metadata attached to a locally produced error result. -/
def localErrorMetadata (status_code : Nat) : ResultMetadata :=
  { request_id := "mcp-generated-id", latency_ms := 0,
    status_code := status_code, country := none, language := none,
    usage_summary := none, notes := none }

/-- The error-variant normalized result a typed error maps to. -/
def errorResult (e : ChatAdsAPIError) : NormalizedResult :=
  { emptyResult (localErrorMetadata e.status_code) with
    status := "error", error_code := some e.code, error_message := some e.message }

/-- Attach quota warnings into `metadata.notes`. -/
def attachQuotaNotes (r : NormalizedResult) : NormalizedResult :=
  { r with metadata :=
      { r.metadata with notes := _check_quota_warnings r.metadata.usage_summary } }

/-- Modelled from the spec: the orchestrator `run_chatads_message_send`
of the missing implementation module.  Resolve the credential, validate,
build the payload, fetch through the circuit-breaker-gated client,
normalize, attach quota warnings; every failure converges to the error
variant of the same result shape — the function is total and never
raises.  Returns the result together with the number of POST attempts
issued. -/
def run_chatads_message_send (message : String)
    (ip user_agent country language api_key env : Option String)
    (max_retries : Nat) (breakerPermits : Bool)
    (oracle : Nat → AttemptOutcome) : NormalizedResult × Nat :=
  match _resolve_api_key api_key env with
  | .error e => (errorResult e, 0)
  | .ok key =>
    match _validate_inputs message ip country language key with
    | .error e => (errorResult e, 0)
    | .ok _ =>
      let _payload := _build_request_payload message ip user_agent country language
      match ChatAdsClient.fetch max_retries breakerPermits oracle with
      | (.error e, n) => (errorResult e, n)
      | (.ok s, n) =>
        (attachQuotaNotes (normalize_envelope s.body s.status s.latencyMs), n)

/-! ## Helper lemmas about the string primitives -/

theorem charsPrefixOf_iff (p l : List Char) : charsPrefixOf p l = true ↔ p <+: l := by
  induction p generalizing l with
  | nil => simp [charsPrefixOf]
  | cons a as ih =>
    cases l with
    | nil => simp [charsPrefixOf]
    | cons b bs =>
      simp [charsPrefixOf, ih, List.cons_prefix_cons]

theorem charsInfixOf_iff (p l : List Char) : charsInfixOf p l = true ↔ p <:+: l := by
  induction l with
  | nil => simp [charsInfixOf, List.isEmpty_iff]
  | cons c cs ih =>
    simp [charsInfixOf, charsPrefixOf_iff, ih, List.infix_cons_iff]

theorem strContains_iff (hay pat : String) :
    strContains hay pat = true ↔ pat.data <:+: hay.data :=
  charsInfixOf_iff pat.data hay.data

theorem strData_append (a b : String) : (a ++ b).data = a.data ++ b.data := rfl

theorem string_mk_ne_empty (c : Char) (cs : List Char) : String.mk (c :: cs) ≠ "" := by
  intro h
  have := congrArg String.data h
  simp at this

theorem splitFirstColon_eq_none (cs : List Char) (h : ∀ c ∈ cs, c ≠ ':') :
    splitFirstColon cs = none := by
  induction cs with
  | nil => rfl
  | cons c cs ih =>
    unfold splitFirstColon
    rw [if_neg (h c (by simp)), ih (fun x hx => h x (by simp [hx]))]
    rfl

theorem splitFirstColon_append (pre post : List Char) (h : ':' ∉ pre) :
    splitFirstColon (pre ++ ':' :: post) = some (pre, post) := by
  induction pre with
  | nil => simp [splitFirstColon]
  | cons c cs ih =>
    have hc : ¬(c = ':') := fun hc => h (by simp [hc])
    have hcs : ':' ∉ cs := fun hx => h (List.mem_cons_of_mem c hx)
    simp [splitFirstColon, hc, ih hcs]

/-! ## Claim theorems: errors, sanitization, reason normalization -/

/-- Claim C9: constructing `ChatAdsAPIError` with only a message yields
code `UPSTREAM_ERROR`, status 502 and empty details, and `str(error)`
equals the constructor message. -/
theorem chatads_api_error_defaults (m : String) :
    (ChatAdsAPIError.mkDefault m).code = "UPSTREAM_ERROR" ∧
    (ChatAdsAPIError.mkDefault m).status_code = 502 ∧
    (ChatAdsAPIError.mkDefault m).details = [] ∧
    (ChatAdsAPIError.mkDefault m).toText = m :=
  ⟨rfl, rfl, rfl, rfl⟩

/-- Claim C10: a non-empty reason containing no colon is returned by
`_normalize_reason` completely unchanged. -/
theorem normalize_reason_no_colon (r : String) (hne : r ≠ "")
    (hnc : ∀ c ∈ r.data, c ≠ ':') : _normalize_reason (some r) = some r := by
  simp only [_normalize_reason]
  rw [if_neg hne, splitFirstColon_eq_none r.data hnc]

/-- Witness for C10 at the test's input `"fallback_used"`. -/
theorem normalize_reason_no_colon_witness :
    _normalize_reason (some "fallback_used") = some "fallback_used" :=
  normalize_reason_no_colon "fallback_used" (by decide) (by decide)

/-- Claim C6: for a non-empty reason of the form `pre ++ ":" ++ post`
with `pre` colon-free, `_normalize_reason` capitalizes (humanizes) the
text before the first colon and keeps the remainder after the first
colon untouched; the spec's example normalizes as stated; an absent or
empty reason becomes `null`. -/
theorem normalize_reason_spec :
    (∀ pre post : List Char, ':' ∉ pre →
      _normalize_reason (some (String.mk (pre ++ ':' :: post))) =
        some (pyCapitalize (underscoresToSpaces (String.mk pre)) ++
          String.mk (':' :: post)))
    ∧ _normalize_reason (some "no_match: insufficient context") =
        some "No match: insufficient context"
    ∧ _normalize_reason none = none
    ∧ _normalize_reason (some "") = none := by
  refine ⟨?_, by decide, rfl, rfl⟩
  intro pre post h
  simp only [_normalize_reason]
  have hne : String.mk (pre ++ ':' :: post) ≠ "" := by
    cases pre with
    | nil => exact string_mk_ne_empty ':' post
    | cons c cs => exact string_mk_ne_empty c (cs ++ ':' :: post)
  rw [if_neg hne]
  have hsp : splitFirstColon (String.mk (pre ++ ':' :: post)).data = some (pre, post) :=
    splitFirstColon_append pre post h
  rw [hsp]

/-- Witness for C6 at a concrete decomposition. -/
theorem normalize_reason_spec_witness :
    _normalize_reason (some (String.mk (['n', 'o'] ++ ':' :: ['x']))) =
      some (pyCapitalize (underscoresToSpaces (String.mk ['n', 'o'])) ++
        String.mk (':' :: ['x'])) :=
  normalize_reason_spec.1 ['n', 'o'] ['x'] (by decide)

/-- Claim C4 counterexample: `"Authorization header invalid"` contains
neither the case-sensitive substring `"x-api-key"` nor `"authorization"`
(and no credential is given), yet `_sanitize_error_for_logging` does not
pass it through unchanged — it replaces it with the redaction string. -/
theorem sanitize_case_counterexample :
    strContains "Authorization header invalid" "x-api-key" = false ∧
    strContains "Authorization header invalid" "authorization" = false ∧
    _sanitize_error_for_logging "Authorization header invalid" none ≠
      "Authorization header invalid" ∧
    _sanitize_error_for_logging "Authorization header invalid" none =
      _API_KEY_REDACTION :=
  ⟨by decide, by decide, by decide, by decide⟩

/-- Claim C4 (amended): the credential-carrying substrings are matched
case-insensitively (on the lower-cased text).  Any error text containing
the literal credential, or (case-insensitively) `x-api-key` or
`authorization`, is replaced entirely by the fixed redaction string; the
output is always either that fixed string or the untouched input (never
a partially masked message); a text containing none of these passes
through unchanged. -/
theorem sanitize_spec (errText : String) (api_key : Option String) :
    (_sanitize_error_for_logging errText api_key = _API_KEY_REDACTION ∨
      _sanitize_error_for_logging errText api_key = errText)
    ∧ (∀ k, api_key = some k → k ≠ "" → strContains errText k = true →
        _sanitize_error_for_logging errText api_key = _API_KEY_REDACTION)
    ∧ (strContains (pyLower errText) "x-api-key" = true →
        _sanitize_error_for_logging errText api_key = _API_KEY_REDACTION)
    ∧ (strContains (pyLower errText) "authorization" = true →
        _sanitize_error_for_logging errText api_key = _API_KEY_REDACTION)
    ∧ ((∀ k, api_key = some k → k = "" ∨ strContains errText k = false) →
        strContains (pyLower errText) "x-api-key" = false →
        strContains (pyLower errText) "authorization" = false →
        _sanitize_error_for_logging errText api_key = errText) := by
  have hdef : _sanitize_error_for_logging errText api_key =
      if (keyHitFlag errText api_key ||
          strContains (pyLower errText) "x-api-key" ||
          strContains (pyLower errText) "authorization") = true then
        _API_KEY_REDACTION
      else errText := rfl
  refine ⟨?_, ?_, ?_, ?_, ?_⟩
  · rw [hdef]
    split
    · exact Or.inl rfl
    · exact Or.inr rfl
  · intro k hk hne hc
    subst hk
    simp [hdef, keyHitFlag, hne, hc]
  · intro hc
    simp [hdef, hc]
  · intro hc
    simp [hdef, hc]
  · intro hk h1 h2
    have hkey : keyHitFlag errText api_key = false := by
      cases api_key with
      | none => rfl
      | some k =>
        rcases hk k rfl with h | h
        · simp [keyHitFlag, h]
        · simp [keyHitFlag, h]
    rw [hdef, hkey, h1, h2]
    simp

/-- Witness for C4's amended theorem: the unrelated message passes
through and the lower-cased header substring is redacted. -/
theorem sanitize_spec_witness :
    _sanitize_error_for_logging "Connection timeout" none = "Connection timeout" ∧
    _sanitize_error_for_logging "Request failed with x-api-key: some_key" none =
      _API_KEY_REDACTION :=
  ⟨(sanitize_spec "Connection timeout" none).2.2.2.2
      (fun k hk => by cases hk) (by decide) (by decide),
    (sanitize_spec "Request failed with x-api-key: some_key" none).2.2.1 (by decide)⟩

/-! ## Validation lemmas and claims C5, C7 -/

theorem optInvalid_eq_false (p : String → Bool) (o : Option String)
    (h : optValid p o = true) : optInvalid p o = false := by
  cases o with
  | none => rfl
  | some v =>
    simp [optValid] at h
    simp [optInvalid, h]

theorem splitWordsAux_ne_nil (cs : List Char) :
    ∀ acc, acc ≠ [] → splitWordsAux acc cs ≠ [] := by
  induction cs with
  | nil =>
    intro acc h
    simp [splitWordsAux, h]
  | cons c cs ih =>
    intro acc h
    by_cases hw : c.isWhitespace
    · simp only [splitWordsAux, hw, if_true]
      rw [if_neg (by simpa using h)]
      exact List.cons_ne_nil _ _
    · simp only [splitWordsAux, hw, if_false]
      exact ih (c :: acc) (List.cons_ne_nil c acc)

theorem splitWordsAux_nil_eq_nil_iff (cs : List Char) :
    splitWordsAux [] cs = [] ↔ ∀ c ∈ cs, c.isWhitespace = true := by
  induction cs with
  | nil => simp [splitWordsAux]
  | cons c cs ih =>
    by_cases hw : c.isWhitespace
    · simp [splitWordsAux, hw, ih]
    · constructor
      · intro h
        exact absurd h (by
          simpa [splitWordsAux, hw] using splitWordsAux_ne_nil cs [c] (by simp))
      · intro h
        exact absurd (h c (by simp)) (by simpa using hw)

theorem wordCount_pos_pyStrip_ne (s : String) (h : 1 ≤ wordCount s) :
    pyStrip s ≠ "" := by
  intro hstrip
  have hdata : ((s.data.dropWhile Char.isWhitespace).reverse.dropWhile
      Char.isWhitespace).reverse = [] := congrArg String.data hstrip
  rw [List.reverse_eq_nil_iff, List.dropWhile_eq_nil_iff] at hdata
  have hall : ∀ c ∈ s.data, c.isWhitespace = true := by
    intro c hc
    by_cases hmem : c ∈ s.data.dropWhile Char.isWhitespace
    · exact hdata c (List.mem_reverse.mpr hmem)
    · have htake : c ∈ s.data.takeWhile Char.isWhitespace := by
        have happ := List.takeWhile_append_dropWhile
          (p := Char.isWhitespace) (l := s.data)
        rw [← happ] at hc
        rcases List.mem_append.mp hc with hmem' | hmem'
        · exact hmem'
        · exact absurd hmem' hmem
      exact List.mem_takeWhile_imp htake
  have hz : splitWordsAux [] s.data = [] :=
    (splitWordsAux_nil_eq_nil_iff s.data).mpr hall
  unfold wordCount pyWords at h
  rw [hz] at h
  simp at h

/-- Claim C5: every message with word count in [2, 100] and length at
most 2000 characters (with a non-empty credential and valid optional
fields) validates; a message empty after trimming fails with
`INVALID_INPUT`, fewer than 2 words with `MESSAGE_TOO_SHORT`, more than
100 words with `MESSAGE_TOO_MANY_WORDS`, more than 2000 characters with
`MESSAGE_TOO_LONG`; the checks short-circuit in order, with an empty
credential failing first with `CONFIGURATION_ERROR` regardless of the
other inputs. -/
theorem validate_message_spec (message : String) (ip country language : Option String)
    (api_key : String) :
    (api_key ≠ "" → 2 ≤ wordCount message → wordCount message ≤ 100 →
      message.length ≤ 2000 → optValid isValidIP ip = true →
      optValid isTwoUpper country = true → optValid isTwoLower language = true →
      _validate_inputs message ip country language api_key = .ok ())
    ∧ (api_key = "" →
        validateCode (_validate_inputs message ip country language api_key) =
          some "CONFIGURATION_ERROR")
    ∧ (api_key ≠ "" → pyStrip message = "" →
        validateCode (_validate_inputs message ip country language api_key) =
          some "INVALID_INPUT")
    ∧ (api_key ≠ "" → pyStrip message ≠ "" → wordCount message < 2 →
        validateCode (_validate_inputs message ip country language api_key) =
          some "MESSAGE_TOO_SHORT")
    ∧ (api_key ≠ "" → 100 < wordCount message →
        validateCode (_validate_inputs message ip country language api_key) =
          some "MESSAGE_TOO_MANY_WORDS")
    ∧ (api_key ≠ "" → 2 ≤ wordCount message → wordCount message ≤ 100 →
        2000 < message.length →
        validateCode (_validate_inputs message ip country language api_key) =
          some "MESSAGE_TOO_LONG") := by
  refine ⟨?_, ?_, ?_, ?_, ?_, ?_⟩
  · intro hk h2 h100 hlen hip hc hl
    have hstrip := wordCount_pos_pyStrip_ne message (by omega)
    simp only [_validate_inputs]
    rw [if_neg hk, if_neg hstrip, if_neg (by omega : ¬wordCount message < 2),
      if_neg (by omega : ¬wordCount message > 100),
      if_neg (by omega : ¬message.length > 2000),
      if_neg (by simp [optInvalid_eq_false _ _ hip]),
      if_neg (by simp [optInvalid_eq_false _ _ hc]),
      if_neg (by simp [optInvalid_eq_false _ _ hl])]
  · intro hk
    simp only [_validate_inputs]
    rw [if_pos hk]
    rfl
  · intro hk hstrip
    simp only [_validate_inputs]
    rw [if_neg hk, if_pos hstrip]
    rfl
  · intro hk hstrip hwc
    simp only [_validate_inputs]
    rw [if_neg hk, if_neg hstrip, if_pos hwc]
    rfl
  · intro hk hwc
    have hstrip := wordCount_pos_pyStrip_ne message (by omega)
    simp only [_validate_inputs]
    rw [if_neg hk, if_neg hstrip, if_neg (by omega : ¬wordCount message < 2),
      if_pos (by omega : wordCount message > 100)]
    rfl
  · intro hk h2 h100 hlen
    have hstrip := wordCount_pos_pyStrip_ne message (by omega)
    simp only [_validate_inputs]
    rw [if_neg hk, if_neg hstrip, if_neg (by omega : ¬wordCount message < 2),
      if_neg (by omega : ¬wordCount message > 100),
      if_pos (by omega : message.length > 2000)]
    rfl

/-- Witness for C5: a valid two-word message passes; the one-word
message `"laptop"` fails with `MESSAGE_TOO_SHORT`; an empty credential
fails first with `CONFIGURATION_ERROR`. -/
theorem validate_message_spec_witness :
    _validate_inputs "hello world" none none none "key" = .ok () ∧
    validateCode (_validate_inputs "laptop" none none none "key") =
      some "MESSAGE_TOO_SHORT" ∧
    validateCode (_validate_inputs "laptop" none none none "") =
      some "CONFIGURATION_ERROR" :=
  ⟨(validate_message_spec "hello world" none none none "key").1 (by decide)
      (by decide) (by decide) (by decide) (by decide) (by decide) (by decide),
    (validate_message_spec "laptop" none none none "key").2.2.2.1 (by decide)
      (by decide) (by decide),
    (validate_message_spec "laptop" none none none "").2.1 (by decide)⟩

theorem isTwoUpper_iff (c : String) :
    isTwoUpper c = true ↔ (c.length = 2 ∧ ∀ ch ∈ c.data, 'A' ≤ ch ∧ ch ≤ 'Z') := by
  simp [isTwoUpper, List.all_eq_true]

theorem isTwoLower_iff (l : String) :
    isTwoLower l = true ↔ (l.length = 2 ∧ ∀ ch ∈ l.data, 'a' ≤ ch ∧ ch ≤ 'z') := by
  simp [isTwoLower, List.all_eq_true]

theorem validate_optional_reduce (message : String) (api_key : String)
    (country language : Option String) (hk : api_key ≠ "")
    (h2 : 2 ≤ wordCount message) (h100 : wordCount message ≤ 100)
    (hlen : message.length ≤ 2000) :
    _validate_inputs message none country language api_key =
      (if optInvalid isTwoUpper country then
        .error (valErr "INVALID_INPUT" "country must be an ISO 3166-1 alpha-2 code")
      else if optInvalid isTwoLower language then
        .error (valErr "INVALID_INPUT" "language must be an ISO 639-1 code")
      else .ok ()) := by
  have hstrip := wordCount_pos_pyStrip_ne message (by omega)
  simp only [_validate_inputs]
  rw [if_neg hk, if_neg hstrip, if_neg (by omega : ¬wordCount message < 2),
    if_neg (by omega : ¬wordCount message > 100),
    if_neg (by omega : ¬message.length > 2000),
    if_neg (by simp [optInvalid])]

/-- Claim C7: with a valid message and credential, a present country
value validates iff it is exactly two uppercase ASCII letters, and a
present language value iff exactly two lowercase ASCII letters; any
other present value fails with `INVALID_INPUT`; absent values always
pass. -/
theorem validate_country_language_spec (message : String) (api_key : String)
    (c l : String) (hk : api_key ≠ "") (h2 : 2 ≤ wordCount message)
    (h100 : wordCount message ≤ 100) (hlen : message.length ≤ 2000) :
    ((_validate_inputs message none (some c) none api_key = .ok ()) ↔
      (c.length = 2 ∧ ∀ ch ∈ c.data, 'A' ≤ ch ∧ ch ≤ 'Z'))
    ∧ (¬(c.length = 2 ∧ ∀ ch ∈ c.data, 'A' ≤ ch ∧ ch ≤ 'Z') →
        validateCode (_validate_inputs message none (some c) none api_key) =
          some "INVALID_INPUT")
    ∧ ((_validate_inputs message none none (some l) api_key = .ok ()) ↔
      (l.length = 2 ∧ ∀ ch ∈ l.data, 'a' ≤ ch ∧ ch ≤ 'z'))
    ∧ (¬(l.length = 2 ∧ ∀ ch ∈ l.data, 'a' ≤ ch ∧ ch ≤ 'z') →
        validateCode (_validate_inputs message none none (some l) api_key) =
          some "INVALID_INPUT")
    ∧ _validate_inputs message none none none api_key = .ok () := by
  have hcRed := validate_optional_reduce message api_key (some c) none hk h2 h100 hlen
  have hlRed := validate_optional_reduce message api_key none (some l) hk h2 h100 hlen
  have hnRed := validate_optional_reduce message api_key none none hk h2 h100 hlen
  refine ⟨?_, ?_, ?_, ?_, ?_⟩
  · rw [hcRed]
    by_cases hb : isTwoUpper c = true
    · simp [optInvalid, hb, ← isTwoUpper_iff]
    · have hb' : isTwoUpper c = false := by simpa using hb
      simp [optInvalid, hb', ← isTwoUpper_iff, hb]
  · intro hp
    have hb : isTwoUpper c = false := by
      simpa using fun ht => hp ((isTwoUpper_iff c).mp ht)
    rw [hcRed]
    simp [optInvalid, hb]
    rfl
  · rw [hlRed]
    by_cases hb : isTwoLower l = true
    · simp [optInvalid, hb, ← isTwoLower_iff]
    · have hb' : isTwoLower l = false := by simpa using hb
      simp [optInvalid, hb', ← isTwoLower_iff, hb]
  · intro hp
    have hb : isTwoLower l = false := by
      simpa using fun ht => hp ((isTwoLower_iff l).mp ht)
    rw [hlRed]
    simp [optInvalid, hb]
    rfl
  · rw [hnRed]
    simp [optInvalid]

/-- Witness for C7: `"US"` passes, `"us"` fails with `INVALID_INPUT`,
`"en"` passes as a language, and absent values pass. -/
theorem validate_country_language_spec_witness :
    _validate_inputs "test message" none (some "US") none "key" = .ok () ∧
    validateCode (_validate_inputs "test message" none (some "us") none "key") =
      some "INVALID_INPUT" ∧
    _validate_inputs "test message" none none (some "en") "key" = .ok () ∧
    _validate_inputs "test message" none none none "key" = .ok () :=
  ⟨(validate_country_language_spec "test message" "key" "US" "xx" (by decide)
      (by decide) (by decide) (by decide)).1.mpr (by decide),
    (validate_country_language_spec "test message" "key" "us" "xx" (by decide)
      (by decide) (by decide) (by decide)).2.1 (by decide),
    (validate_country_language_spec "test message" "key" "US" "en" (by decide)
      (by decide) (by decide) (by decide)).2.2.1.mpr (by decide),
    (validate_country_language_spec "test message" "key" "US" "en" (by decide)
      (by decide) (by decide) (by decide)).2.2.2.2⟩

/-! ## Circuit breaker lemmas and claim C1 -/

theorem recordFailures_preserves (cb : CircuitBreaker) (t : ℤ) (n : Nat) :
    (cb.recordFailures t n).failure_threshold = cb.failure_threshold ∧
    (cb.recordFailures t n).timeout_seconds = cb.timeout_seconds := by
  induction n with
  | zero => exact ⟨rfl, rfl⟩
  | succ n ih =>
    simpa [CircuitBreaker.recordFailures, CircuitBreaker.record_failure] using ih

theorem recordFailures_closed_below (F : Nat) (T t : ℤ) :
    ∀ n, n < F →
      ((CircuitBreaker.init F T).recordFailures t n).state = .CLOSED ∧
      ((CircuitBreaker.init F T).recordFailures t n).failure_count = n := by
  intro n
  induction n with
  | zero => exact fun _ => ⟨rfl, rfl⟩
  | succ n ih =>
    intro hlt
    obtain ⟨hstate, hcount⟩ := ih (by omega)
    have hth := (recordFailures_preserves (CircuitBreaker.init F T) t n).1
    constructor
    · simp only [CircuitBreaker.recordFailures, CircuitBreaker.record_failure,
        hstate, hcount, hth]
      rw [if_neg]
      simp [CircuitBreaker.init]
      omega
    · simp [CircuitBreaker.recordFailures, CircuitBreaker.record_failure, hcount]

theorem recordFailures_open_at (F : Nat) (T t : ℤ) (hF : 1 ≤ F) :
    ((CircuitBreaker.init F T).recordFailures t F).state = .OPEN ∧
    ((CircuitBreaker.init F T).recordFailures t F).last_failure_time = some t ∧
    ((CircuitBreaker.init F T).recordFailures t F).timeout_seconds = T := by
  obtain ⟨F, rfl⟩ : ∃ m, F = m + 1 := ⟨F - 1, by omega⟩
  obtain ⟨hstate, hcount⟩ := recordFailures_closed_below (F + 1) T t F (by omega)
  have hth := (recordFailures_preserves (CircuitBreaker.init (F + 1) T) t F).1
  refine ⟨?_, ?_, ?_⟩
  · simp only [CircuitBreaker.recordFailures, CircuitBreaker.record_failure,
      hcount, hth]
    rw [if_pos]
    right
    simp [CircuitBreaker.init]
  · simp [CircuitBreaker.recordFailures, CircuitBreaker.record_failure]
  · exact (recordFailures_preserves (CircuitBreaker.init (F + 1) T) t (F + 1)).2

/-- Claim C1: the circuit-breaker lifecycle.  From a fresh breaker with
threshold `F` and timeout `T`: fewer than `F` consecutive failures leave
it CLOSED with the exact count; the `F`-th failure opens it and, before
`T` seconds have elapsed, `is_available` returns false; a success while
CLOSED resets the counter to zero and stays CLOSED; once at least `T`
seconds have elapsed since the last failure while OPEN, `is_available`
returns true and moves the state to HALF_OPEN; in HALF_OPEN a success
closes the circuit with the counter reset, and a failure reopens it and
restarts the timeout window. -/
theorem circuit_breaker_lifecycle (F : Nat) (T t tq : ℤ) (hF : 1 ≤ F) :
    (∀ n, n < F →
      ((CircuitBreaker.init F T).recordFailures t n).state = .CLOSED ∧
      ((CircuitBreaker.init F T).recordFailures t n).failure_count = n)
    ∧ ((CircuitBreaker.init F T).recordFailures t F).state = .OPEN
    ∧ (tq - t < T →
        (((CircuitBreaker.init F T).recordFailures t F).is_available tq).1 = false)
    ∧ (∀ cb : CircuitBreaker, cb.state = .CLOSED →
        cb.record_success.failure_count = 0 ∧ cb.record_success.state = .CLOSED)
    ∧ (∀ (cb : CircuitBreaker) (tf : ℤ), cb.state = .OPEN →
        cb.last_failure_time = some tf → cb.timeout_seconds ≤ tq - tf →
        cb.is_available tq = (true, { cb with state := .HALF_OPEN }))
    ∧ (∀ cb : CircuitBreaker, cb.state = .HALF_OPEN →
        cb.record_success.state = .CLOSED ∧ cb.record_success.failure_count = 0)
    ∧ (∀ cb : CircuitBreaker, cb.state = .HALF_OPEN →
        (cb.record_failure tq).state = .OPEN ∧
        (cb.record_failure tq).last_failure_time = some tq) := by
  obtain ⟨hopen, hlast, htime⟩ := recordFailures_open_at F T t hF
  refine ⟨recordFailures_closed_below F T t, hopen, ?_, ?_, ?_, ?_, ?_⟩
  · intro helapsed
    simp only [CircuitBreaker.is_available, hopen, hlast, htime]
    rw [if_neg (by omega)]
  · intro cb hc
    exact ⟨rfl, rfl⟩
  · intro cb tf hst hlf hel
    simp only [CircuitBreaker.is_available, hst, hlf]
    rw [if_pos hel]
  · intro cb hh
    exact ⟨rfl, rfl⟩
  · intro cb hh
    constructor
    · simp [CircuitBreaker.record_failure, hh]
    · rfl

/-- Witness for C1 at `F = 3`, `T = 10`, failures at time 0, queried at
time 5 (still closed window) and transitioning at time 12. -/
theorem circuit_breaker_lifecycle_witness :
    ((CircuitBreaker.init 3 10).recordFailures 0 2).state = .CLOSED ∧
    ((CircuitBreaker.init 3 10).recordFailures 0 3).state = .OPEN ∧
    (((CircuitBreaker.init 3 10).recordFailures 0 3).is_available 5).1 = false ∧
    (((CircuitBreaker.init 3 10).recordFailures 0 3).is_available 12) =
      (true, { (CircuitBreaker.init 3 10).recordFailures 0 3 with
        state := .HALF_OPEN }) :=
  ⟨((circuit_breaker_lifecycle 3 10 0 5 (by decide)).1 2 (by decide)).1,
    (circuit_breaker_lifecycle 3 10 0 5 (by decide)).2.1,
    (circuit_breaker_lifecycle 3 10 0 5 (by decide)).2.2.1 (by decide),
    (circuit_breaker_lifecycle 3 10 0 12 (by decide)).2.2.2.2.1
      ((CircuitBreaker.init 3 10).recordFailures 0 3) 0
      (circuit_breaker_lifecycle 3 10 0 12 (by decide)).2.1
      (by decide) (by decide)⟩

/-! ## Retry-loop lemmas and claim C2 -/

theorem retryLoop_exhausts (oracle : Nat → AttemptOutcome) :
    ∀ rem idx, 1 ≤ rem →
      (∀ k, k < rem → isRetryable (oracle (idx + k)) = true) →
      (retryLoop oracle idx rem).2 = rem ∧
      ∃ e, (retryLoop oracle idx rem).1 = .error e ∧
        e.code = "UPSTREAM_UNAVAILABLE" := by
  intro rem
  induction rem with
  | zero => omega
  | succ rem ih =>
    intro idx _ hall
    have h0 := hall 0 (by omega)
    rw [Nat.add_zero] at h0
    by_cases hrem : rem = 0
    · subst hrem
      cases ho : oracle idx with
      | transient msg =>
        simp [retryLoop, ho, upstreamUnavailable]
      | response s body lat =>
        rw [ho] at h0
        have h5 : 500 ≤ s ∧ s ≤ 599 := by
          simpa [isRetryable] using h0
        simp [retryLoop, ho, h5, upstreamUnavailable]
    · have hall' : ∀ k, k < rem → isRetryable (oracle (idx + 1 + k)) = true := by
        intro k hk
        have := hall (k + 1) (by omega)
        rwa [show idx + (k + 1) = idx + 1 + k by omega] at this
      obtain ⟨hn, e, he, hc⟩ := ih (idx + 1) (by omega) hall'
      cases ho : oracle idx with
      | transient msg =>
        simp only [retryLoop, ho, if_neg hrem]
        exact ⟨by rw [hn], e, by rw [he], hc⟩
      | response s body lat =>
        rw [ho] at h0
        have h5 : 500 ≤ s ∧ s ≤ 599 := by
          simpa [isRetryable] using h0
        simp only [retryLoop, ho, if_pos h5, if_neg hrem]
        exact ⟨by rw [hn], e, by rw [he], hc⟩

theorem retryLoop_success_after (oracle : Nat → AttemptOutcome) :
    ∀ N idx rem, N + 1 ≤ rem →
      (∀ k, k < N → isRetryable (oracle (idx + k)) = true) →
      ∀ s body lat, oracle (idx + N) = .response s body lat →
      200 ≤ s → s ≤ 299 →
      retryLoop oracle idx rem = (.ok ⟨body, s, lat⟩, N + 1) := by
  intro N
  induction N with
  | zero =>
    intro idx rem h1 _ s body lat hor h2a h2b
    obtain ⟨rem', rfl⟩ : ∃ m, rem = m + 1 := ⟨rem - 1, by omega⟩
    rw [Nat.add_zero] at hor
    simp only [retryLoop, hor]
    rw [if_neg (by omega : ¬(500 ≤ s ∧ s ≤ 599))]
  | succ N ih =>
    intro idx rem h1 hall s body lat hor h2a h2b
    obtain ⟨rem', rfl⟩ : ∃ m, rem = m + 1 := ⟨rem - 1, by omega⟩
    have hrem' : rem' ≠ 0 := by omega
    have h0 := hall 0 (by omega)
    rw [Nat.add_zero] at h0
    have hall' : ∀ k, k < N → isRetryable (oracle (idx + 1 + k)) = true := by
      intro k hk
      have := hall (k + 1) (by omega)
      rwa [show idx + (k + 1) = idx + 1 + k by omega] at this
    have hrec := ih (idx + 1) rem' (by omega) hall' s body lat
      (by rwa [show idx + 1 + N = idx + (N + 1) by omega]) h2a h2b
    cases ho : oracle idx with
    | transient msg =>
      simp only [retryLoop, ho, if_neg hrem']
      rw [hrec]
    | response s' body' lat' =>
      rw [ho] at h0
      have h5 : 500 ≤ s' ∧ s' ≤ 599 := by
        simpa [isRetryable] using h0
      simp only [retryLoop, ho, if_pos h5, if_neg hrem']
      rw [hrec]

/-- Claim C2: with the circuit permitting the call, if the first `N`
POST attempts fail transiently (timeout/connection failure or HTTP 5xx)
and attempt `N + 1 ≤ max_retries` succeeds with a 2xx response, `fetch`
issues exactly `N + 1` attempts and returns the successful body, status
and latency; if all `max_retries` attempts fail transiently, `fetch`
fails with a `ChatAdsAPIError` of code `UPSTREAM_UNAVAILABLE` after
exactly `max_retries` attempts. -/
theorem fetch_retry_spec (R N : Nat) (oracle : Nat → AttemptOutcome)
    (s : Nat) (body : RawEnvelope) (lat : ℚ) :
    (N + 1 ≤ R → (∀ k, k < N → isRetryable (oracle (1 + k)) = true) →
      oracle (1 + N) = .response s body lat → 200 ≤ s → s ≤ 299 →
      ChatAdsClient.fetch R true oracle = (.ok ⟨body, s, lat⟩, N + 1))
    ∧ (1 ≤ R → (∀ k, k < R → isRetryable (oracle (1 + k)) = true) →
      (ChatAdsClient.fetch R true oracle).2 = R ∧
      ∃ e, (ChatAdsClient.fetch R true oracle).1 = .error e ∧
        e.code = "UPSTREAM_UNAVAILABLE") := by
  constructor
  · intro hNR hall hor h2a h2b
    show retryLoop oracle 1 R = _
    exact retryLoop_success_after oracle N 1 R hNR hall s body lat hor h2a h2b
  · intro hR hall
    exact retryLoop_exhausts oracle R 1 hR hall

/-- Witness for C2: two timeouts then a 2xx success on the third of
three permitted attempts, and two timeouts exhausting two permitted
attempts. -/
theorem fetch_retry_spec_witness :
    ChatAdsClient.fetch 3 true
        (fun i => if i ≤ 2 then .transient "Timeout"
          else .response 200 ⟨true, some ⟨false, none, none⟩, none, none⟩ 7) =
      (.ok ⟨⟨true, some ⟨false, none, none⟩, none, none⟩, 200, 7⟩, 3) ∧
    (ChatAdsClient.fetch 2 true (fun _ => .transient "Timeout")).2 = 2 :=
  ⟨(fetch_retry_spec 3 2
      (fun i => if i ≤ 2 then .transient "Timeout"
        else .response 200 ⟨true, some ⟨false, none, none⟩, none, none⟩ 7)
      200 ⟨true, some ⟨false, none, none⟩, none, none⟩ 7).1
      (by decide) (by decide) (by decide) (by decide) (by decide),
    ((fetch_retry_spec 2 0 (fun _ => .transient "Timeout") 0
      ⟨true, none, none, none⟩ 0).2 (by decide) (by decide)).1⟩

/-! ## Orchestrator lemmas and claim C3 -/

theorem attachQuotaNotes_status (r : NormalizedResult) :
    (attachQuotaNotes r).status = r.status ∧
    (attachQuotaNotes r).error_code = r.error_code :=
  ⟨rfl, rfl⟩

theorem normalize_envelope_status (raw : RawEnvelope) (sc : Nat) (lat : ℚ) :
    ((normalize_envelope raw sc lat).status = "success" ∨
      (normalize_envelope raw sc lat).status = "no_match" ∨
      (normalize_envelope raw sc lat).status = "error") ∧
    ((normalize_envelope raw sc lat).status = "error" →
      (normalize_envelope raw sc lat).error_code.isSome = true) := by
  simp only [normalize_envelope]
  split
  · exact ⟨Or.inr (Or.inr rfl), fun _ => rfl⟩
  · cases raw.data with
    | none => exact ⟨Or.inr (Or.inr rfl), fun _ => rfl⟩
    | some d =>
      simp only [normalizeData]
      cases hm : d.matched with
      | true =>
        rw [if_pos rfl]
        cases d.ad with
        | some ad =>
          refine ⟨Or.inl rfl, fun h => ?_⟩
          have hq : ("success" : String) = "error" := h
          exact absurd hq (by decide)
        | none => exact ⟨Or.inr (Or.inr rfl), fun _ => rfl⟩
      | false =>
        rw [if_neg (by decide)]
        refine ⟨Or.inr (Or.inl rfl), fun h => ?_⟩
        have hq : ("no_match" : String) = "error" := h
        exact absurd hq (by decide)

theorem resolve_error_code (override env : Option String) (e : ChatAdsAPIError)
    (h : _resolve_api_key override env = .error e) : e.code = "CONFIGURATION_ERROR" := by
  simp only [_resolve_api_key] at h
  split at h
  · cases h
    rfl
  · cases h

theorem validate_error_codes (message : String) (ip country language : Option String)
    (key : String) (e : ChatAdsAPIError)
    (h : _validate_inputs message ip country language key = .error e) :
    e.code ∈ localCodes := by
  simp only [_validate_inputs] at h
  split_ifs at h <;> cases h <;> decide

/-- Claim C3: `run_chatads_message_send` is total — for every input it
returns a result whose status is one of success/no-match/error, every
error carries an error code, and local failures are resolved without any
POST attempt: an unresolvable credential yields `CONFIGURATION_ERROR`
with zero attempts, and a validation failure yields its taxonomy code
(one of the closed local codes) with zero attempts. -/
theorem run_send_spec (message : String)
    (ip ua country language override env : Option String)
    (R : Nat) (bk : Bool) (oracle : Nat → AttemptOutcome) :
    ((run_chatads_message_send message ip ua country language override env
        R bk oracle).1.status = "success" ∨
      (run_chatads_message_send message ip ua country language override env
        R bk oracle).1.status = "no_match" ∨
      (run_chatads_message_send message ip ua country language override env
        R bk oracle).1.status = "error")
    ∧ ((run_chatads_message_send message ip ua country language override env
        R bk oracle).1.status = "error" →
      (run_chatads_message_send message ip ua country language override env
        R bk oracle).1.error_code.isSome = true)
    ∧ (∀ e, _resolve_api_key override env = .error e →
        run_chatads_message_send message ip ua country language override env
          R bk oracle = (errorResult e, 0) ∧ e.code = "CONFIGURATION_ERROR")
    ∧ (∀ key e, _resolve_api_key override env = .ok key →
        _validate_inputs message ip country language key = .error e →
        run_chatads_message_send message ip ua country language override env
          R bk oracle = (errorResult e, 0) ∧ e.code ∈ localCodes) := by
  cases hres : _resolve_api_key override env with
  | error e =>
    simp only [run_chatads_message_send, hres]
    refine ⟨Or.inr (Or.inr rfl), fun _ => rfl, ?_, ?_⟩
    · intro e' he'
      cases he'
      exact ⟨rfl, resolve_error_code override env e hres⟩
    · intro key e' hok
      exact (Except.noConfusion hok)
  | ok key =>
    cases hval : _validate_inputs message ip country language key with
    | error e =>
      simp only [run_chatads_message_send, hres, hval]
      refine ⟨Or.inr (Or.inr rfl), fun _ => rfl, ?_, ?_⟩
      · intro e' he'
        exact (Except.noConfusion he')
      · intro key' e' hok hval'
        cases hok
        rw [hval] at hval'
        cases hval'
        exact ⟨rfl, validate_error_codes message ip country language key e hval⟩
    | ok u =>
      have hlocal : ∀ p : NormalizedResult × Nat,
          run_chatads_message_send message ip ua country language override env
            R bk oracle = p →
          (p.1.status = "success" ∨ p.1.status = "no_match" ∨
            p.1.status = "error") ∧
          (p.1.status = "error" → p.1.error_code.isSome = true) := by
        intro p hp
        rcases hf : ChatAdsClient.fetch R bk oracle with ⟨r, n⟩
        cases r with
        | error e =>
          rw [show p = (errorResult e, n) by
            rw [← hp]; simp only [run_chatads_message_send, hres, hval, hf]]
          exact ⟨Or.inr (Or.inr rfl), fun _ => rfl⟩
        | ok fs =>
          rw [show p = (attachQuotaNotes
              (normalize_envelope fs.body fs.status fs.latencyMs), n) by
            rw [← hp]; simp only [run_chatads_message_send, hres, hval, hf]]
          obtain ⟨h3, herr⟩ := normalize_envelope_status fs.body fs.status fs.latencyMs
          obtain ⟨hs, hc⟩ := attachQuotaNotes_status
            (normalize_envelope fs.body fs.status fs.latencyMs)
          exact ⟨by rw [hs]; exact h3, by rw [hs, hc]; exact herr⟩
      obtain ⟨h3, herr⟩ := hlocal _ rfl
      refine ⟨h3, herr, ?_, ?_⟩
      · intro e' he'
        exact (Except.noConfusion he')
      · intro key' e' hok hval'
        cases hok
        rw [hval] at hval'
        exact (Except.noConfusion hval')

/-- Witness for C3: the one-word message `"laptop"` fails with
`MESSAGE_TOO_SHORT` and zero POST attempts; with no credential anywhere
the result is `CONFIGURATION_ERROR` with zero POST attempts. -/
theorem run_send_spec_witness :
    run_chatads_message_send "laptop" none none none none none (some "k") 3 true
        (fun _ => .transient "t") =
      (errorResult (valErr "MESSAGE_TOO_SHORT"
        "message must contain at least 2 words"), 0) ∧
    run_chatads_message_send "test message" none none none none none none 3 true
        (fun _ => .transient "t") =
      (errorResult missingKeyError, 0) :=
  ⟨((run_send_spec "laptop" none none none none none (some "k") 3 true
      (fun _ => .transient "t")).2.2.2 "k"
      (valErr "MESSAGE_TOO_SHORT" "message must contain at least 2 words")
      (by decide) (by decide)).1,
    ((run_send_spec "test message" none none none none none none 3 true
      (fun _ => .transient "t")).2.2.1 missingKeyError (by decide)).1⟩

/-! ## Quota-warning lemmas and claim C8 -/

theorem strContains_self (s : String) : strContains s s = true :=
  (strContains_iff s s).mpr (List.infix_refl s.data)

theorem strContains_append_left (a b pat : String)
    (h : strContains a pat = true) : strContains (a ++ b) pat = true := by
  rw [strContains_iff] at h ⊢
  rw [strData_append]
  exact List.IsInfix.trans h ( List.IsPrefix.isInfix (List.prefix_append a.data b.data))

theorem strContains_append_right (a b pat : String)
    (h : strContains b pat = true) : strContains (a ++ b) pat = true := by
  rw [strContains_iff] at h ⊢
  rw [strData_append]
  exact List.IsInfix.trans h ( List.IsSuffix.isInfix (List.suffix_append a.data b.data))

theorem strContains_join_mem (pat : String) :
    ∀ (ws : List String) (w : String), w ∈ ws → strContains w pat = true →
      strContains (joinWarnings ws) pat = true := by
  intro ws
  induction ws with
  | nil => intro w hmem; cases hmem
  | cons w1 ws ih =>
    intro w hmem h
    cases ws with
    | nil =>
      have hw : w = w1 := by simpa using hmem
      subst hw
      simpa [joinWarnings] using h
    | cons w2 ws2 =>
      rcases List.mem_cons.mp hmem with hw | hmem'
      · subst hw
        simp only [joinWarnings]
        exact strContains_append_left _ _ _ (strContains_append_left _ _ _ h)
      · simp only [joinWarnings]
        exact strContains_append_right _ _ _ (ih w hmem' h)

theorem strContains_join_sep (w1 w2 : String) (ws : List String) :
    strContains (joinWarnings (w1 :: w2 :: ws)) " | " = true := by
  simp only [joinWarnings]
  exact strContains_append_left _ _ _
    (strContains_append_right _ _ _ (strContains_self " | "))

theorem monthlyWarningText_names_count (rem : Nat) :
    strContains (monthlyWarningText rem)
      (toString rem ++ " requests remaining") = true :=
  strContains_append_right _ _ _ (strContains_self _)

theorem dailyWarningText_names_percent (used limit : Nat) :
    strContains (dailyWarningText used limit)
      (toString (used * 100 / limit) ++ "%") = true := by
  simp only [dailyWarningText]
  rw [String.append_assoc]
  exact strContains_append_right _ _ _ (strContains_append_left _ _ _
    (strContains_self _))

theorem minuteWarningText_names_window (used limit : Nat) :
    strContains (minuteWarningText used limit) "minute" = true := by
  simp only [minuteWarningText]
  rw [String.append_assoc]
  exact strContains_append_right _ _ _ (strContains_append_left _ _ _
    (strContains_self _))

/-- Claim C8: the quota monitor evaluates its three conditions
independently — monthly remaining ≤ 10, daily ratio ≥ 90%, minute ratio
≥ 80% or used = limit − 1 — emitting text naming the remaining count,
the percentage, or the per-minute window for each condition that fires,
joined with a separator when several fire; it returns nothing when usage
data is absent or its required sub-fields are missing, and nothing for
healthy usage. -/
theorem quota_warnings_spec :
    _check_quota_warnings none = none
    ∧ (∀ u : UsageSummary,
        (∀ w, u.monthly = some w → w.remaining = none) →
        (∀ w, u.daily = some w → w.used = none ∨ w.limit = none) →
        (∀ w, u.minute = some w → w.used = none ∨ w.limit = none) →
        _check_quota_warnings (some u) = none)
    ∧ (∀ mu ml mr du dl iu il ft cc, monthlyLow mr = false →
        dailyHigh du dl = false → minuteNear iu il = false →
        _check_quota_warnings (some ⟨some ⟨some mu, some ml, some mr⟩,
          some ⟨some du, some dl, none⟩, some ⟨some iu, some il, none⟩,
          ft, cc⟩) = none)
    ∧ (∀ mu ml mr du dl iu il ft cc, monthlyLow mr = true →
        ∃ txt, _check_quota_warnings (some ⟨some ⟨some mu, some ml, some mr⟩,
          some ⟨some du, some dl, none⟩, some ⟨some iu, some il, none⟩,
          ft, cc⟩) = some txt ∧
          strContains txt (toString mr ++ " requests remaining") = true)
    ∧ (∀ mu ml mr du dl iu il ft cc, dailyHigh du dl = true →
        ∃ txt, _check_quota_warnings (some ⟨some ⟨some mu, some ml, some mr⟩,
          some ⟨some du, some dl, none⟩, some ⟨some iu, some il, none⟩,
          ft, cc⟩) = some txt ∧
          strContains txt (toString (du * 100 / dl) ++ "%") = true)
    ∧ (∀ mu ml mr du dl iu il ft cc, minuteNear iu il = true →
        ∃ txt, _check_quota_warnings (some ⟨some ⟨some mu, some ml, some mr⟩,
          some ⟨some du, some dl, none⟩, some ⟨some iu, some il, none⟩,
          ft, cc⟩) = some txt ∧ strContains txt "minute" = true)
    ∧ (∀ mu ml mr du dl iu il ft cc, monthlyLow mr = true →
        dailyHigh du dl = true →
        ∃ txt, _check_quota_warnings (some ⟨some ⟨some mu, some ml, some mr⟩,
          some ⟨some du, some dl, none⟩, some ⟨some iu, some il, none⟩,
          ft, cc⟩) = some txt ∧ strContains txt " | " = true) := by
  refine ⟨rfl, ?_, ?_, ?_, ?_, ?_, ?_⟩
  · intro u hm hd hi
    obtain ⟨mw, dw, iw, ft, cc⟩ := u
    have hmW : monthlyWarnings mw = [] := by
      cases mw with
      | none => rfl
      | some w =>
        have := hm w rfl
        simp [monthlyWarnings, this]
    have hdW : dailyWarnings dw = [] := by
      cases dw with
      | none => rfl
      | some w =>
        rcases hd w rfl with h | h <;> simp [dailyWarnings, h]
    have hiW : minuteWarnings iw = [] := by
      cases iw with
      | none => rfl
      | some w =>
        rcases hi w rfl with h | h <;> simp [minuteWarnings, h]
    simp [_check_quota_warnings, hmW, hdW, hiW]
  · intro mu ml mr du dl iu il ft cc hm hd hi
    simp [_check_quota_warnings, monthlyWarnings, dailyWarnings,
      minuteWarnings, hm, hd, hi]
  · intro mu ml mr du dl iu il ft cc hm
    simp only [_check_quota_warnings, monthlyWarnings, dailyWarnings,
      minuteWarnings, hm, if_true, List.singleton_append, List.cons_append]
    rw [if_neg (by simp)]
    exact ⟨_, rfl, strContains_join_mem _ _ _ (by simp)
      (monthlyWarningText_names_count mr)⟩
  · intro mu ml mr du dl iu il ft cc hd
    simp only [_check_quota_warnings, monthlyWarnings, dailyWarnings,
      minuteWarnings, hd, if_true, List.singleton_append, List.cons_append]
    rw [if_neg (by simp)]
    exact ⟨_, rfl, strContains_join_mem _ _ _ (by simp)
      (dailyWarningText_names_percent du dl)⟩
  · intro mu ml mr du dl iu il ft cc hi
    simp only [_check_quota_warnings, monthlyWarnings, dailyWarnings,
      minuteWarnings, hi, if_true, List.singleton_append, List.cons_append]
    rw [if_neg (by simp)]
    exact ⟨_, rfl, strContains_join_mem _ _ _ (by simp)
      (minuteWarningText_names_window iu il)⟩
  · intro mu ml mr du dl iu il ft cc hm hd
    simp only [_check_quota_warnings, monthlyWarnings, dailyWarnings,
      minuteWarnings, hm, hd, if_true, List.singleton_append, List.cons_append]
    rw [if_neg (by simp)]
    exact ⟨_, rfl, strContains_join_sep _ _ _⟩

/-- Witness for C8 at the tests' usage figures: monthly remaining 5 of
1000 warns naming 5; healthy usage yields no warning; the doubly firing
summary contains the separator. -/
theorem quota_warnings_spec_witness :
    (∃ txt, _check_quota_warnings (some ⟨some ⟨some 995, some 1000, some 5⟩,
        some ⟨some 10, some 100, none⟩, some ⟨some 1, some 5, none⟩,
        none, none⟩) = some txt ∧
      strContains txt (toString 5 ++ " requests remaining") = true) ∧
    _check_quota_warnings (some ⟨some ⟨some 100, some 1000, some 900⟩,
      some ⟨some 10, some 100, none⟩, some ⟨some 1, some 5, none⟩,
      none, none⟩) = none ∧
    (∃ txt, _check_quota_warnings (some ⟨some ⟨some 995, some 1000, some 5⟩,
        some ⟨some 95, some 100, none⟩, some ⟨some 4, some 5, none⟩,
        none, none⟩) = some txt ∧ strContains txt " | " = true) :=
  ⟨quota_warnings_spec.2.2.2.1 995 1000 5 10 100 1 5 none none (by decide),
    quota_warnings_spec.2.2.1 100 1000 900 10 100 1 5 none none (by decide)
      (by decide) (by decide),
    quota_warnings_spec.2.2.2.2.2.2 995 1000 5 95 100 4 5 none none
      (by decide) (by decide)⟩

end ChatAds
